import Mathlib

/-!
Shallow embedding of the StarVine C-vine construction engine
(`src/starvine/vine/C_vine.py`) and the Independence copula
(`src/starvine/bvcopula/copula/indep_copula.py`), together with theorems
settling the specification claims about them.

Data columns are embedded as `List ℚ` (one list per variable column);
machine floats are modelled as exact rationals, `None` as `Option`,
Python exceptions as `Except PyError`.
-/

/-- Python runtime errors relevant to the embedded code. -/
inductive PyError where
  | attributeError
  | typeError
  | assertionError
  | valueError
  deriving DecidableEq, Repr

/-- A dynamically typed Python value: either a numeric sequence
(numpy array / pandas Series) or an attribute dictionary. -/
inductive PyVal where
  | arr : List ℚ → PyVal
  | dict : List (String × PyVal) → PyVal

/-- Attribute lookup on an instance's attribute dictionary: reading a name
that has never been assigned raises `AttributeError`. -/
def getattr (attrs : List (String × PyVal)) (name : String) : Except PyError PyVal :=
  match attrs.lookup name with
  | some v => Except.ok v
  | none => Except.error PyError.attributeError

/-! ## Independence copula (`indep_copula.py`)

Each method takes the two input sequences, a rotation and the parameter
list, exactly as in the source (`rotation=0, *args`); the bodies ignore
rotation and parameters, as the source bodies do. -/

/-- `IndepCopula._pdf(u, v, rotation=0, *args)`: `np.ones(len(u))` (lines 16-17). -/
def IndepCopula._pdf (u : List ℚ) (_v : List ℚ) (_rotation : ℤ) (_args : List ℚ) : List ℚ :=
  List.replicate u.length 1

/-- `IndepCopula._cdf(u, v, rotation=0, *args)`: the elementwise product
`u * v` (lines 19-20). -/
def IndepCopula._cdf (u : List ℚ) (v : List ℚ) (_rotation : ℤ) (_args : List ℚ) : List ℚ :=
  List.zipWith (· * ·) u v

/-- `IndepCopula._h(u, v, rotation=0, *args)`: returns `v` (lines 22-23). -/
def IndepCopula._h (_u : List ℚ) (v : List ℚ) (_rotation : ℤ) (_args : List ℚ) : List ℚ :=
  v

/-- `IndepCopula._hinv(u, v, rotation=0, *args)`: returns `v` (lines 25-26). -/
def IndepCopula._hinv (_u : List ℚ) (v : List ℚ) (_rotation : ℤ) (_args : List ℚ) : List ℚ :=
  v

/-! ## Dependence estimator

`pc_base.PairCopula.empKTau` is called by `C_vine.py` but its module is
not part of the sources here, so it is modelled from the spec. -/

/-- Sign of a rational number. -/
def signQ (x : ℚ) : ℤ :=
  if 0 < x then 1 else if x < 0 then -1 else 0

/-- Sum over all index pairs i < j of `sign((x_j - x_i) * (y_j - y_i))`:
concordant pairs count +1, discordant pairs count -1. -/
def concSum : List (ℚ × ℚ) → ℤ
  | [] => 0
  | p :: rest => (rest.map (fun q => signQ ((q.1 - p.1) * (q.2 - p.2)))).sum + concSum rest

/-- Modelled from the spec: the Dependence Estimator
`empiricalKendallTau(seriesA, seriesB) -> (tau, pValue)` (spec 4.2), the
empirical Kendall rank-correlation statistic
`(concordant - discordant) / (n(n-1)/2)`; only the tau component is
modelled, since `C_vine.py`'s one well-formed call site uses
`empKTau()[0]` alone (line 163). -/
def empKTau (xs ys : List ℚ) : ℚ :=
  let ps := xs.zip ys
  if ps.length ≤ 1 then 0
  else (concSum ps : ℚ) / ((ps.length : ℚ) * ((ps.length : ℚ) - 1) / 2)

/-- `np.argmax`: the index of the first occurrence of the maximum value
of the array, modelled by a structurally recursive function with the
same first-occurrence semantics. -/
def npArgmax : List ℚ → ℕ
  | [] => 0
  | [_] => 0
  | x :: y :: rest =>
      let j := npArgmax (y :: rest)
      if x < (y :: rest).getD j 0 then j + 1 else 0

/-! ## `Ctree` (`C_vine.py` lines 98-226)

Node identifiers are the default integer column labels
`range(data.shape[1])` (line 117); `cols` is the list of data columns, so
node `j`'s data is `cols.getD j []`. -/

/-- The right-hand side of line 188 as written:
`trialKtau, trialP = trialPair.empKTau` has NO call parentheses
(compare line 163's `trialPair.empKTau()[0]`), so the expression is the
bound-method object itself, and unpacking a method object into a
2-tuple raises `TypeError`; the estimator is never actually called
here. -/
def unpackKTauLine188 : Except PyError (ℚ × ℚ) :=
  Except.error PyError.typeError

/-- The inner loop of `_selectSpanningTree` (lines 183-193) for one
candidate root `i`: nodes equal to the root are skipped (line 185);
for every other node the body executes line 188's unpacking - which
raises `TypeError` - before it could accumulate `trialKtauSum[i]`
(line 189) or append the `(root, other, tau)` triple (line 190). -/
def Ctree.trialRootLoop (cols : List (List ℚ)) (i : ℕ) :
    Except PyError (ℚ × List (ℕ × ℕ × ℚ)) :=
  (List.range cols.length).foldlM
    (fun acc j =>
      if j ≠ i then do
        let tkp ← unpackKTauLine188
        pure (acc.1 + tkp.1, acc.2 ++ [(i, j, tkp.1)])
      else pure acc)
    ((0 : ℚ), ([] : List (ℕ × ℕ × ℚ)))

/-- The outer loop of `_selectSpanningTree` (lines 181-193): one
`(trialKtauSum[i], trialPairings[i])` entry per candidate root, in node
order. -/
def Ctree.trialLoops (cols : List (List ℚ)) :
    Except PyError (List ℚ × List (List (ℕ × ℕ × ℚ))) :=
  (List.range cols.length).foldlM
    (fun acc i => do
      let r ← Ctree.trialRootLoop cols i
      pure (acc.1 ++ [r.1], acc.2 ++ [r.2]))
    (([] : List ℚ), ([] : List (List (ℕ × ℕ × ℚ))))

/-- `Ctree._selectSpanningTree` (lines 166-196): the trial loops, then
line 195's `bestPairingIndex = np.argmax(np.abs(trialKtauSum))`
(`np.argmax` raises `ValueError` on an empty array) and line 196's
`return trialPairings[bestPairingIndex]`. For every level with at
least two nodes, line 188 raises `TypeError` inside the loops first,
so the selection part is unreachable there. -/
def Ctree._selectSpanningTree (cols : List (List ℚ)) :
    Except PyError (List (ℕ × ℕ × ℚ)) := do
  let r ← Ctree.trialLoops cols
  if r.1.isEmpty then Except.error PyError.valueError
  else pure (r.2.getD (npArgmax (r.1.map (fun s => |s|))) [])

/-- `Ctree._setTreeStructure` (lines 152-164): attaches an `empKTau()[0]`
weight (line 163, a well-formed call) to each user-supplied node pair;
despite its docstring it performs no validation of the pairs. -/
def Ctree._setTreeStructure (cols : List (List ℚ)) (nodePairs : List (ℕ × ℕ)) :
    List (ℕ × ℕ × ℚ) :=
  nodePairs.map (fun p => (p.1, p.2, empKTau (cols.getD p.1 []) (cols.getD p.2 [])))

/-- `Ctree.setEdges` (lines 125-143), the node-pair computation:
`if treeStructure:` is Python truthiness, so both `None` and an empty
list fall through to `_selectSpanningTree` (which fails for levels with
two or more nodes). -/
def Ctree.setEdges (cols : List (List ℚ)) (treeStructure : Option (List (ℕ × ℕ))) :
    Except PyError (List (ℕ × ℕ × ℚ)) :=
  match treeStructure with
  | some ts => if ts.isEmpty then Ctree._selectSpanningTree cols
               else Except.ok (Ctree._setTreeStructure cols ts)
  | none => Ctree._selectSpanningTree cols

/-- Whether two weighted edges join the same unordered node pair
(`networkx.Graph` identifies `(u,v)` with `(v,u)`). -/
def sameEdge (e f : ℕ × ℕ × ℚ) : Bool :=
  (e.1 == f.1 && e.2.1 == f.2.1) || (e.1 == f.2.1 && e.2.1 == f.1)

/-- `nx.Graph.add_edge`: adding an edge over an existing unordered pair
replaces that edge's data; otherwise the edge is appended. -/
def addEdge (es : List (ℕ × ℕ × ℚ)) (e : ℕ × ℕ × ℚ) : List (ℕ × ℕ × ℚ) :=
  if es.any (fun f => sameEdge e f) then es.map (fun f => if sameEdge e f then e else f)
  else es ++ [e]

/-- The edge set of `self.tree` after `setEdges` (lines 125-143): when
the node-pair computation succeeds, its pairs are inserted by the
`add_edge` loop (lines 137-143) into the edgeless node graph built by
`_buildNodes`; when it raises, the exception propagates. -/
def Ctree.treeEdges (cols : List (List ℚ)) (treeStructure : Option (List (ℕ × ℕ))) :
    Except PyError (List (ℕ × ℕ × ℚ)) :=
  (Ctree.setEdges cols treeStructure).map (fun pairs => pairs.foldl addEdge [])

/-- The attribute record a `Ctree` would carry once constructed
(lines 112-123): data columns, integer column labels, `nT`, `level`. -/
structure CtreeState where
  cols : List (List ℚ)
  labels : List ℕ
  nT : ℕ
  level : Option ℤ

/-- `Ctree.__init__` (lines 103-123). Its first statement, line 111, is
`assert(len(self.data.shape) == 2)`: it reads `self.data` before any
assignment to `self.data` (the assignments are at lines 113/115), and a
fresh instance's attribute dictionary is empty, so the lookup raises
`AttributeError` for every input. -/
def Ctree.init (data : List (List ℚ)) (lvl : Option ℤ) : Except PyError CtreeState := do
  let selfAttrs : List (String × PyVal) := []
  let _ ← getattr selfAttrs "data"
  pure { cols := data, labels := List.range data.length, nT := data.length, level := lvl }

/-! ## Spec-side root selection

A second definition following the spec's words, for comparison with
`Ctree._selectSpanningTree` (spec 4.5 `selectRootAndEdges()`). -/

/-- Modelled from the spec: for each candidate root, the sum of
`|empirical Kendall tau|` between the root and every other node. -/
def specRootScores (cols : List (List ℚ)) : List ℚ :=
  (List.range cols.length).map (fun i =>
    (((List.range cols.length).filter (fun j => j ≠ i)).map
      (fun j => |empKTau (cols.getD i []) (cols.getD j [])|)).sum)

/-- Modelled from the spec: the root maximizing `specRootScores`, ties
broken by lowest node index (`npArgmax` returns the least maximizer). -/
def specSelectRoot (cols : List (List ℚ)) : ℕ :=
  npArgmax (specRootScores cols)

/-! ## Fitted edges and `evalH` -/

/-- A fitted pair-copula model, the first component of the
`copulaTournament()` result stored at `pc-model` (lines 203-208): the
winning copula instance carries its rotation tag, and its conditional
distribution maps two numeric sequences, a rotation and the parameter
list to a sequence. -/
structure PCModel where
  rotation : ℤ
  hImpl : List ℚ → List ℚ → ℤ → List ℚ → List ℚ

/-- One fitted edge of a C-tree: endpoints, the winning model and its
fitted parameters (`pc-model = (copulaModel, copulaParams)`). -/
structure FittedEdge where
  u : ℕ
  v : ℕ
  model : PCModel
  params : List ℚ

/-- Modelled from the spec: `CopulaBase.h` (the public `conditional`
wrapper, whose module is not among the sources) takes two
pseudo-observation sequences `u`, `v` (spec 4.1
`conditional(u, v, rotation, params) -> sequence in [0,1]`) and applies
the family's conditional distribution; a non-sequence argument fails the
numeric array operations with a `TypeError`. -/
def CopulaBase.h (m : PCModel) (uVal vVal : PyVal) (rotation : ℤ) (theta : List ℚ) :
    Except PyError (List ℚ) :=
  match uVal, vVal with
  | PyVal.arr us, PyVal.arr vs => Except.ok (m.hImpl us vs rotation theta)
  | _, _ => Except.error PyError.typeError

/-- `self.tree.node[i]` for the graph built by `_buildNodes`
(lines 145-150): the node's attribute dictionary `{"data": column}`,
not the column itself. -/
def Ctree.nodeAttr (cols : List (List ℚ)) (i : ℕ) : PyVal :=
  PyVal.dict [("data", PyVal.arr (cols.getD i []))]

/-- `Ctree.evalH` (lines 218-226): for every edge `(u, v)` it computes
`pc-model[0].h(self.tree.node[u], self.tree.node[v], 0, pc-model[1])` -
passing the node attribute dictionaries (not their data series) and the
literal rotation `0` (not the fitted model's rotation) - and stores each
result under the edge's `h-dist` key. -/
def Ctree.evalH (cols : List (List ℚ)) (edges : List FittedEdge) :
    Except PyError (List (List ℚ)) :=
  edges.mapM (fun e =>
    CopulaBase.h e.model (Ctree.nodeAttr cols e.u) (Ctree.nodeAttr cols e.v) 0 e.params)

/-- `Ctree.treeLLH` (lines 210-216): the body is `pass`, so the call
returns `None` for every tree. -/
def Ctree.treeLLH (_edges : List FittedEdge) : Option ℚ :=
  none

/-! ## `Cvine` (`C_vine.py` lines 16-95) -/

/-- The attributes set by `Cvine.__init__` (lines 66-69): the data, the
level count `nLevels = data.shape[1] - 1`, and the vine graph
`nx.Graph()` whose nodes would hold the tree levels (nothing in the
class ever adds one). -/
structure CvineState where
  data : List (List ℚ)
  nLevels : ℤ
  vine : List Unit

/-- `Cvine.__init__` (lines 66-69). -/
def Cvine.init (data : List (List ℚ)) : CvineState :=
  { data := data, nLevels := (data.length : ℤ) - 1, vine := [] }

/-- `Cvine.constructVine` (lines 71-79): the body is `pass`; no tree
level is built and the state is unchanged. -/
def Cvine.constructVine (s : CvineState) : CvineState :=
  s

/-- `Cvine.vineLLH` (lines 81-86): the body is `pass`, so the call
returns `None` for every state and parameter list. -/
def Cvine.vineLLH (_s : CvineState) (_plist : List ℚ) : Option ℚ :=
  none

/-- A concrete 3-variable, 4-observation data set used as test input:
column 0 and column 1 are perfectly discordant (tau = -1), column 2 has
tau = 1/3 with column 0 and tau = -1/3 with column 1. -/
def tstData3 : List (List ℚ) := [[1, 2, 3, 4], [4, 3, 2, 1], [2, 1, 4, 3]]

/-! ## Properties of `npArgmax`

These record that `npArgmax` has `np.argmax`'s first-occurrence
semantics: the returned index attains the maximum, and every strictly
smaller index holds a strictly smaller value (so among tied maxima the
least index is returned, the tie rule `specSelectRoot` relies on). -/

theorem npArgmax_lt : ∀ (l : List ℚ), l ≠ [] → npArgmax l < l.length
  | [], h => absurd rfl h
  | [_], _ => Nat.zero_lt_one
  | x :: y :: rest, _ => by
      have ih := npArgmax_lt (y :: rest) (by simp)
      simp only [npArgmax]
      split
      · simpa [List.length_cons] using Nat.succ_lt_succ ih
      · simp [List.length_cons]

theorem npArgmax_le : ∀ (l : List ℚ), ∀ j < l.length, l.getD j 0 ≤ l.getD (npArgmax l) 0
  | [], j, hj => by simp at hj
  | [x], j, hj => by
      have hj0 : j = 0 := by
        simp [List.length_cons] at hj
        omega
      subst hj0
      simp [npArgmax]
  | x :: y :: rest, j, hj => by
      have ih := npArgmax_le (y :: rest)
      simp only [npArgmax]
      split
      · rename_i hgt
        cases j with
        | zero => simpa using le_of_lt hgt
        | succ k =>
            have hk : k < (y :: rest).length := by
              simpa [List.length_cons] using hj
            simpa using ih k hk
      · rename_i hle
        push_neg at hle
        cases j with
        | zero => simp
        | succ k =>
            have hk : k < (y :: rest).length := by
              simpa [List.length_cons] using hj
            have := ih k hk
            simpa using le_trans this hle

theorem npArgmax_first : ∀ (l : List ℚ), ∀ j < npArgmax l, l.getD j 0 < l.getD (npArgmax l) 0
  | [], j, hj => by simp [npArgmax] at hj
  | [x], j, hj => by simp [npArgmax] at hj
  | x :: y :: rest, j, hj => by
      have ih := npArgmax_first (y :: rest)
      simp only [npArgmax] at hj ⊢
      split
      · rename_i hgt
        cases j with
        | zero => simpa using hgt
        | succ k =>
            have hk : k < npArgmax (y :: rest) := by
              have := hj
              simp only [npArgmax] at this
              split at this
              · omega
              · omega
            simpa using ih k hk
      · rename_i hle
        split at hj
        · rename_i hgt
          exact absurd hgt hle
        · omega

/-! ## The line-188 error path -/

theorem trialRootLoop_err (cols : List (List ℚ)) (h : 2 ≤ cols.length) :
    Ctree.trialRootLoop cols 0 = Except.error PyError.typeError := by
  obtain ⟨m, hm⟩ : ∃ m, cols.length = m + 2 := ⟨cols.length - 2, by omega⟩
  have hr : List.range cols.length
      = 0 :: 1 :: ((List.range m).map Nat.succ).map Nat.succ := by
    rw [hm, List.range_succ_eq_map, List.range_succ_eq_map]
    rfl
  rw [Ctree.trialRootLoop, hr]
  rfl

theorem trialLoops_err (cols : List (List ℚ)) (h : 2 ≤ cols.length) :
    Ctree.trialLoops cols = Except.error PyError.typeError := by
  obtain ⟨m, hm⟩ : ∃ m, cols.length = m + 2 := ⟨cols.length - 2, by omega⟩
  have hr : List.range cols.length
      = 0 :: 1 :: ((List.range m).map Nat.succ).map Nat.succ := by
    rw [hm, List.range_succ_eq_map, List.range_succ_eq_map]
    rfl
  rw [Ctree.trialLoops, hr, List.foldlM_cons]
  rw [show Ctree.trialRootLoop cols 0 = Except.error PyError.typeError from
    trialRootLoop_err cols h]
  rfl

theorem selectSpanningTree_err (cols : List (List ℚ)) (h : 2 ≤ cols.length) :
    Ctree._selectSpanningTree cols = Except.error PyError.typeError := by
  unfold Ctree._selectSpanningTree
  rw [trialLoops_err cols h]
  rfl

theorem setEdges_none_err (cols : List (List ℚ)) (h : 2 ≤ cols.length) :
    Ctree.setEdges cols none = Except.error PyError.typeError := by
  unfold Ctree.setEdges
  exact selectSpanningTree_err cols h

/-! ## Concrete evaluations on `tstData3` -/

theorem tau01 : empKTau [(1:ℚ), 2, 3, 4] [(4:ℚ), 3, 2, 1] = -1 := by
  norm_num [empKTau, concSum, signQ, List.zip_cons_cons]

theorem tau10 : empKTau [(4:ℚ), 3, 2, 1] [(1:ℚ), 2, 3, 4] = -1 := by
  norm_num [empKTau, concSum, signQ, List.zip_cons_cons]

theorem tau02 : empKTau [(1:ℚ), 2, 3, 4] [(2:ℚ), 1, 4, 3] = 1/3 := by
  norm_num [empKTau, concSum, signQ, List.zip_cons_cons]

theorem tau20 : empKTau [(2:ℚ), 1, 4, 3] [(1:ℚ), 2, 3, 4] = 1/3 := by
  norm_num [empKTau, concSum, signQ, List.zip_cons_cons]

theorem tau12 : empKTau [(4:ℚ), 3, 2, 1] [(2:ℚ), 1, 4, 3] = -(1/3) := by
  norm_num [empKTau, concSum, signQ, List.zip_cons_cons]

theorem tau21 : empKTau [(2:ℚ), 1, 4, 3] [(4:ℚ), 3, 2, 1] = -(1/3) := by
  norm_num [empKTau, concSum, signQ, List.zip_cons_cons]

theorem specScores3 : specRootScores tstData3 = [4/3, 4/3, 2/3] := by
  norm_num [specRootScores, tstData3, List.range_succ, tau01, tau10, tau02, tau20,
    tau12, tau21, abs_of_nonpos, abs_of_nonneg]

theorem specRoot3 : specSelectRoot tstData3 = 0 := by
  rw [specSelectRoot, specScores3]
  norm_num [npArgmax]

/-! ## Claim theorems -/

/-- C1: automatic root selection never selects the root maximizing the
sum of |tau|: on the 3-column `tstData3` it raises `TypeError` at
line 188 (`trialKtau, trialP = trialPair.empKTau` unpacks the
never-called bound method) before any root is chosen, whereas the
claimed criterion (sum of |tau| per candidate, scores [4/3, 4/3, 2/3],
ties to the lowest index) selects root 0. -/
theorem c1_selectSpanningTree_crashes_before_selection :
    Ctree._selectSpanningTree tstData3 = Except.error PyError.typeError
    ∧ specRootScores tstData3 = [4/3, 4/3, 2/3]
    ∧ specSelectRoot tstData3 = 0 :=
  ⟨selectSpanningTree_err tstData3 (by norm_num [tstData3]), specScores3, specRoot3⟩

/-- C2 (counterexample): the round-trip law as stated,
`conditional(conditionalInverse(u, v, θ), v, θ) = u`, fails for the
Independence family at u = [1/4], v = [1/2]: `_h(_hinv(u, v), v)`
returns [1/2], not [1/4] (far beyond any numerical tolerance). -/
theorem c2_roundtrip_fails_first_slot :
    IndepCopula._h (IndepCopula._hinv [(1:ℚ)/4] [(1:ℚ)/2] 0 []) [(1:ℚ)/2] 0 [] ≠ [(1:ℚ)/4] := by
  simp only [IndepCopula._h, IndepCopula._hinv]
  norm_num

/-- C2 (amended): for the Independence family the round trip holds
exactly with the inverse composed in the second argument slot -
`conditional(u, conditionalInverse(u, v, θ), θ) = v` - matching the
code's convention that the first argument is the conditioning
variable (as the fit test's sampling `_hinv(u_hat, s2)` also uses). -/
theorem c2_roundtrip_second_slot : ∀ (u v : List ℚ) (rot rot' : ℤ) (args args' : List ℚ),
    IndepCopula._h u (IndepCopula._hinv u v rot args) rot' args' = v :=
  fun _ _ _ _ _ _ => rfl

/-- C2 witness: the amended round trip at u = [1/4], v = [1/2]. -/
theorem c2_roundtrip_second_slot_witness :
    IndepCopula._h [(1:ℚ)/4] (IndepCopula._hinv [(1:ℚ)/4] [(1:ℚ)/2] 0 []) 0 [] = [(1:ℚ)/2] :=
  c2_roundtrip_second_slot [(1:ℚ)/4] [(1:ℚ)/2] 0 0 [] []

/-- C3: for equal-length inputs with values in (0,1), the Independence
family's density is the constant sequence 1, the sum of log densities
(the fitted log-likelihood) is 0, and its conditional returns `v`
pointwise. -/
theorem c3_indep_density_one_conditional_v (u v : List ℚ) (rot : ℤ) (args : List ℚ)
    (_hlen : u.length = v.length)
    (_hu : ∀ x ∈ u, 0 < x ∧ x < 1) (_hv : ∀ x ∈ v, 0 < x ∧ x < 1) :
    IndepCopula._pdf u v rot args = List.replicate u.length 1
    ∧ ((IndepCopula._pdf u v rot args).map (fun q : ℚ => Real.log (q : ℝ))).sum = 0
    ∧ IndepCopula._h u v rot args = v := by
  refine ⟨rfl, ?_, rfl⟩
  simp [IndepCopula._pdf]

/-- C3 witness: the density/log-likelihood/conditional facts at
u = [1/2], v = [1/3]. -/
theorem c3_indep_density_one_conditional_v_witness :
    (([(1:ℚ)/2].length = [(1:ℚ)/3].length)
      ∧ (∀ x ∈ [(1:ℚ)/2], 0 < x ∧ x < 1) ∧ (∀ x ∈ [(1:ℚ)/3], 0 < x ∧ x < 1))
    ∧ (IndepCopula._pdf [(1:ℚ)/2] [(1:ℚ)/3] 0 [] = List.replicate [(1:ℚ)/2].length 1
      ∧ ((IndepCopula._pdf [(1:ℚ)/2] [(1:ℚ)/3] 0 []).map (fun q : ℚ => Real.log (q : ℝ))).sum = 0
      ∧ IndepCopula._h [(1:ℚ)/2] [(1:ℚ)/3] 0 [] = [(1:ℚ)/3]) :=
  ⟨⟨rfl, by norm_num, by norm_num⟩,
    c3_indep_density_one_conditional_v _ _ _ _ rfl (by norm_num) (by norm_num)⟩

/-- C4: `setEdges` establishes the (n-1)-edge star invariant on neither
path: the automatic path raises `TypeError` (line 188) for every level
with at least two nodes, so no edge set is produced at all; and a
user-supplied structure is attached without validation - [(0, 1)] on
the 3-column `tstData3` stores the single edge (0, 1, -1) where the
claim requires n - 1 = 2 edges. -/
theorem c4_setEdges_no_star :
    (∀ cols : List (List ℚ), 2 ≤ cols.length →
        Ctree.setEdges cols none = Except.error PyError.typeError)
    ∧ Ctree.treeEdges tstData3 (some [(0, 1)]) = Except.ok [(0, 1, -1)]
    ∧ tstData3.length - 1 = 2 := by
  refine ⟨setEdges_none_err, ?_, rfl⟩
  norm_num [Ctree.treeEdges, Ctree.setEdges, Ctree._setTreeStructure, addEdge,
    tstData3, tau01, Except.map]

/-- C5: `evalH` does not apply the conditional distribution to the
endpoint nodes' pseudo-observation series: it passes the node attribute
dictionaries (`self.tree.node[u]`, not `...["data"]`), so on a fitted
2-node tree (independence model, params [1]) the `h` call fails with a
`TypeError` instead of producing the next level's series. -/
theorem c5_evalH_passes_node_dict_typeerror :
    Ctree.evalH [[1/2, 1/4], [1/4, 1/2]] [⟨0, 1, ⟨0, IndepCopula._h⟩, [1]⟩]
      = Except.error PyError.typeError :=
  rfl

/-- C6: `constructVine` builds no tree levels: on the 3-column data set
the vine holds 0 trees although `nLevels = 2`, and `constructVine` is
the identity on every state (its body is `pass`). -/
theorem c6_constructVine_builds_no_levels :
    (Cvine.constructVine (Cvine.init tstData3)).vine.length = 0
    ∧ (Cvine.init tstData3).nLevels = 2
    ∧ ∀ s : CvineState, Cvine.constructVine s = s := by
  refine ⟨rfl, ?_, fun s => rfl⟩
  norm_num [Cvine.init, tstData3]

/-- C7: `Cvine.vineLLH` and `Ctree.treeLLH` both have `pass` bodies and
return `None` for every input, never a sum of log-likelihoods. -/
theorem c7_vineLLH_treeLLH_return_none :
    ∀ (s : CvineState) (plist : List ℚ) (edges : List FittedEdge),
      Cvine.vineLLH s plist = none ∧ Ctree.treeLLH edges = none :=
  fun _ _ _ => ⟨rfl, rfl⟩

/-- C7 witness: both log-likelihood calls return `None` on concrete
inputs. -/
theorem c7_vineLLH_treeLLH_return_none_witness :
    Cvine.vineLLH (Cvine.init tstData3) [] = none ∧ Ctree.treeLLH [] = none :=
  c7_vineLLH_treeLLH_return_none (Cvine.init tstData3) [] []

/-- C8: the tie-break never executes: on `tstData3` the aggregate
scores of the claimed criterion tie between roots 0 and 1 at the
maximum (and the spec-side rule resolves the tie to the lowest index,
root 0), but automatic selection raises `TypeError` at line 188 before
line 195's `np.argmax` ever runs, so no root is selected at all. -/
theorem c8_tiebreak_unreachable :
    (specRootScores tstData3).getD 0 0 = (specRootScores tstData3).getD 1 0
    ∧ (∀ j < (specRootScores tstData3).length,
        (specRootScores tstData3).getD j 0 ≤ (specRootScores tstData3).getD 0 0)
    ∧ specSelectRoot tstData3 = 0
    ∧ Ctree.setEdges tstData3 none = Except.error PyError.typeError := by
  refine ⟨?_, ?_, specRoot3, setEdges_none_err tstData3 (by norm_num [tstData3])⟩
  · rw [specScores3]
    rfl
  · intro j hj
    rw [specScores3] at hj ⊢
    simp only [List.length_cons, List.length_nil] at hj
    interval_cases j <;> norm_num

/-- C9: `Ctree.__init__` reads `self.data` (line 111's assert) before
any assignment to it, so constructing a `Ctree` raises `AttributeError`
for every input and no instance is ever produced. -/
theorem c9_init_always_attribute_error :
    ∀ (data : List (List ℚ)) (lvl : Option ℤ),
      Ctree.init data lvl = Except.error PyError.attributeError :=
  fun _ _ => rfl

/-- C9 witness: the constructor fault at a concrete input. -/
theorem c9_init_always_attribute_error_witness :
    Ctree.init tstData3 (some 0) = Except.error PyError.attributeError :=
  c9_init_always_attribute_error tstData3 (some 0)

/-- C10: for inputs with values in (0,1), the Independence family's
cumulative distribution is the elementwise product `u * v`, and each of
its entries lies strictly between 0 and 1. -/
theorem c10_cdf_product_in_unit_interval (u v : List ℚ) (rot : ℤ) (args : List ℚ)
    (hu : ∀ x ∈ u, 0 < x ∧ x < 1) (hv : ∀ x ∈ v, 0 < x ∧ x < 1) :
    IndepCopula._cdf u v rot args = List.zipWith (fun a b => a * b) u v
    ∧ ∀ x ∈ IndepCopula._cdf u v rot args, 0 < x ∧ x < 1 := by
  refine ⟨rfl, ?_⟩
  intro x hx
  simp only [IndepCopula._cdf] at hx
  obtain ⟨i, hi, rfl⟩ := List.mem_iff_getElem.mp hx
  have hmin : i < min u.length v.length := by simpa [List.length_zipWith] using hi
  have hiu : i < u.length := lt_of_lt_of_le hmin (min_le_left _ _)
  have hiv : i < v.length := lt_of_lt_of_le hmin (min_le_right _ _)
  have hgu := hu (u[i]) (List.getElem_mem hiu)
  have hgv := hv (v[i]) (List.getElem_mem hiv)
  rw [List.getElem_zipWith]
  constructor
  · exact mul_pos hgu.1 hgv.1
  · nlinarith [hgu.1, hgu.2, hgv.1, hgv.2]

/-- C10 witness: the product-copula facts at u = [1/2], v = [1/3]. -/
theorem c10_cdf_product_in_unit_interval_witness :
    ((∀ x ∈ [(1:ℚ)/2], 0 < x ∧ x < 1) ∧ (∀ x ∈ [(1:ℚ)/3], 0 < x ∧ x < 1))
    ∧ (IndepCopula._cdf [(1:ℚ)/2] [(1:ℚ)/3] 0 []
        = List.zipWith (fun a b => a * b) [(1:ℚ)/2] [(1:ℚ)/3]
      ∧ ∀ x ∈ IndepCopula._cdf [(1:ℚ)/2] [(1:ℚ)/3] 0 [], 0 < x ∧ x < 1) :=
  ⟨⟨by norm_num, by norm_num⟩,
    c10_cdf_product_in_unit_interval _ _ 0 [] (by norm_num) (by norm_num)⟩
